import Mathlib

/-!
Verification development for the CMIS DRC client
(`src/drc/cmis/client.py` of maykinmedia/gemma-documentregistratiecomponent).

The Python source is embedded shallowly: dictionaries become association
lists over `PropValue`, Django ORM state becomes explicit record types
(`LedgerState`, `ZRCState`), the CMIS repository becomes `SyncStore` /
`Repo`, and each client method becomes a Lean function that mirrors the
source's control flow line by line, including its dead branches.  Raised
exceptions become `Except` errors; since `sync` runs under
`transaction.atomic`, an escaping exception rolls the database back, so the
caller-observable state on error is the input state (errors carry the
raise-time ledger where a claim needs to inspect it).
-/

set_option autoImplicit false

deriving instance DecidableEq for Except

/-- A Python value stored in a CMIS / Django property dictionary.  `null`
doubles as Python's `None` and as the `dict.get` default for a missing key,
matching the source's use of `.get`. -/
inductive PropValue where
  | null
  | str (s : String)
  | int (i : Int)
deriving DecidableEq, Repr

/-- Python `d.get(k)`: the value stored under `k`, or `None` when the key is
absent. -/
def pyGet (props : List (String × PropValue)) (k : String) : PropValue :=
  match props.lookup k with
  | some v => v
  | none => PropValue.null

/-- Python `d[k] = v` on a dictionary with unique keys: replace the
existing binding in place (insertion order is kept), else append a fresh
binding at the end. -/
def dictSet : List (String × PropValue) → String → PropValue →
    List (String × PropValue)
  | [], k, v => [(k, v)]
  | kv :: tl, k, v =>
      if kv.1 == k then (k, v) :: tl else kv :: dictSet tl k v

/-- Status of a `ChangeLog` run row (drc/cmis/choices.py `ChangeLogStatus`). -/
inductive ChangeLogStatus where
  | in_progress
  | completed
deriving DecidableEq, Repr

/-- One row of the `ChangeLog` Django model: primary key, changelog token
and run status. -/
structure ChangeLogRow where
  pk : Nat
  token : Int
  status : ChangeLogStatus
deriving DecidableEq, Repr

/-- The run-ledger table: rows in creation (primary key) order, plus the
next primary key the database would assign. -/
structure LedgerState where
  rows : List ChangeLogRow
  nextPk : Nat
deriving DecidableEq, Repr

/-- A ledger is well formed when every stored row's primary key is below the
next key the database would assign. -/
def LedgerState.wf (l : LedgerState) : Prop :=
  ∀ r ∈ l.rows, r.pk < l.nextPk

/-- Modelled from the spec: `ChangeLog.objects.create(token=...)` — the
`ChangeLog` model (drc/cmis/models.py, not under src/) creates a run row
whose status defaults to `in_progress` ("created at run start (status
in_progress)", spec section 3).  Returns the new state and the new row's
primary key. -/
def ledgerCreate (l : LedgerState) (token : Int) : LedgerState × Nat :=
  (⟨l.rows ++ [⟨l.nextPk, token, ChangeLogStatus.in_progress⟩], l.nextPk + 1⟩,
   l.nextPk)

/-- `change_log.delete()`: remove the row with the given primary key. -/
def ledgerDelete (l : LedgerState) (pk : Nat) : LedgerState :=
  ⟨l.rows.filter (fun r => decide (r.pk ≠ pk)), l.nextPk⟩

/-- `ChangeLog.objects.exclude(pk=...).filter(status=in_progress).count()`
(src/drc/cmis/client.py line 347). -/
def otherInProgressCount (l : LedgerState) (pk : Nat) : Nat :=
  (l.rows.filter
    (fun r => decide (r.pk ≠ pk ∧ r.status = ChangeLogStatus.in_progress))).length

/-- `ChangeLog.objects.filter(status=completed).last()` followed by
`last_change_log.token if last_change_log else 0` (src lines 352-353); the
most recent completed row is the last one in creation order. -/
def lastCompletedToken (l : LedgerState) : Int :=
  match (l.rows.filter (fun r => decide (r.status = ChangeLogStatus.completed))).getLast? with
  | some r => r.token
  | none => 0

/-- `change_log.status = completed; change_log.save()` (src lines 422-423). -/
def ledgerMarkCompleted (l : LedgerState) (pk : Nat) : LedgerState :=
  ⟨l.rows.map (fun r =>
      if r.pk == pk then { r with status := ChangeLogStatus.completed } else r),
   l.nextPk⟩

/-- Modelled from the spec: the value of `CMISObjectType.edc`
(drc/cmis/choices.py, not under src/), the tracked document object type; a
distinguished string constant whose exact value is immaterial. -/
def edcObjectType : String := "zsdms:edc"

/-- One live object in the CMIS repository.  `name` is the value of the
`cmis:name` property (always present on a stored document);
`contentStreamId` mirrors `cmis:contentStreamId` (`none` means no content
stream is set); `content` is what `getContentStream()` would return;
`pwc` is the private working copy: `some (checkedOutId, checkedOutBy)` when
the document is checked out; `paths` is `getPaths()` with each path already
split on `/` (Python's `path.split('/')`). -/
structure StoreObject where
  objectId : String
  name : String
  properties : List (String × PropValue)
  contentStreamId : Option String
  content : List Nat
  pwc : Option (String × String)
  paths : List (List String)
deriving DecidableEq, Repr

/-- One entry of the CMIS changelog feed: `change_entry.id`,
`change_entry.objectId` and `change_entry.changeType`. -/
structure ChangeEntry where
  entryId : String
  objectId : String
  changeType : String
deriving DecidableEq, Repr

/-- The remote store as the sync run sees it: the advertised
`latestChangeLogToken` (`none` models the repository info missing the key,
which raises `KeyError` in the source), the live objects, and the pending
changelog window that `getContentChanges` would deliver. -/
structure SyncStore where
  latestChangeLogToken : Option Int
  objects : List StoreObject
  changes : List ChangeEntry
deriving DecidableEq, Repr

/-- `self._repo.getObject(object_id)`: `none` models
`ObjectNotFoundException`. -/
def getStoreObject (s : SyncStore) (oid : String) : Option StoreObject :=
  s.objects.find? (fun o => o.objectId == oid)

/-- Modelled from the spec: `get_cmis_object_id` (drc/cmis/utils.py, not
under src/) normalizes a change entry's raw object id to the bare store
object id; entries in this model already carry the bare id, so it is the
identity. -/
def get_cmis_object_id (oid : String) : String := oid

/-- One `EnkelvoudigInformatieObject` row of the local record store:
business identifier, title, the persisted `_object_id` handle, and the
descriptive metadata in its store-property form (the datamodel maps the
metadata fields 1:1 to store properties, spec section 3). -/
structure InformatieObject where
  identificatie : String
  titel : String
  object_id : Option String
  cmisProps : List (String × PropValue)
deriving DecidableEq, Repr

/-- The local (ZRC) record store. -/
structure ZRCState where
  docs : List InformatieObject
deriving DecidableEq, Repr

/-- Modelled from the spec: `EnkelvoudigInformatieObject.update_cmis_properties`
(drc/datamodel, not under src/) applies the store's current property values
onto the local record; with `commit=False` nothing is saved to the
database. -/
def update_cmis_properties (d : InformatieObject)
    (props : List (String × PropValue)) (commit : Bool) : InformatieObject :=
  if commit then { d with cmisProps := props } else d

/-- Replace the record with the given identifier. -/
def zrcReplace (z : ZRCState) (ident : String) (d : InformatieObject) : ZRCState :=
  ⟨z.docs.map (fun e => if e.identificatie == ident then d else e)⟩

/-- `EnkelvoudigInformatieObject.objects.filter(_object_id=oid).delete()`:
the new state and the number of deleted rows (src line 400). -/
def zrcDeleteByObjectId (z : ZRCState) (oid : String) : ZRCState × Nat :=
  (⟨z.docs.filter (fun d => decide (d.object_id ≠ some oid))⟩,
   (z.docs.filter (fun d => decide (d.object_id = some oid))).length)

/-- The five outcome counters of a sync run. -/
structure Counters where
  created : Nat
  updated : Nat
  deleted : Nat
  security : Nat
  failed : Nat
deriving DecidableEq, Repr

/-- Mutable state of the per-entry loop (src lines 360-419): the local
record store, the counters, and the dedup cache of seen
`"objectId-changeType"` keys. -/
structure LoopState where
  zrc : ZRCState
  counters : Counters
  cache : List String
deriving DecidableEq, Repr

/-- One iteration of the sync loop body, embedded from src lines 365-419
with the source's exact (decompiled) nesting:

* dedup on `"{object_id}-{change_type}"`;
* `created`/`updated`: fetch the object (`failed` when absent); nothing at
  all when its `cmis:objectTypeId` is not the EDC type; `updated` looks up
  the local record by the store-carried identifier (`failed` when zero or
  several match, via `DoesNotExist` / the generic handler); `created` reads
  `getPaths()[0].split('/')[-2]`, whose `IndexError` on an empty path list
  or a path with fewer than two segments is swallowed by the generic
  handler as `failed`;
* `deleted` and not dryrun: delete local records by `_object_id`, counting
  `deleted` or `failed`;
* `deleted` and dryrun: the source's `else:` branch re-tests the change
  type against `security` (necessarily false there) and counts `failed`;
* any other change type: no branch applies and no counter changes. -/
def syncStep (dryrun : Bool) (store : SyncStore) (ls : LoopState)
    (e : ChangeEntry) : LoopState :=
  let change_type := e.changeType
  let object_id := get_cmis_object_id e.objectId
  let cache_key := object_id ++ "-" ++ change_type
  if ls.cache.contains cache_key then ls
  else
    let ls := { ls with cache := ls.cache ++ [cache_key] }
    if change_type = "created" ∨ change_type = "updated" then
      match getStoreObject store object_id with
      | none =>
          { ls with counters := { ls.counters with failed := ls.counters.failed + 1 } }
      | some obj =>
          if pyGet obj.properties "cmis:objectTypeId" = PropValue.str edcObjectType then
            if change_type = "updated" then
              let zs_document_id := pyGet obj.properties "zsdms:documentIdentificatie"
              match ls.zrc.docs.filter
                  (fun d => decide (PropValue.str d.identificatie = zs_document_id)) with
              | [edc] =>
                  let edc := update_cmis_properties edc obj.properties (!dryrun)
                  { ls with
                      zrc := zrcReplace ls.zrc edc.identificatie edc,
                      counters := { ls.counters with updated := ls.counters.updated + 1 } }
              | _ =>
                  { ls with counters := { ls.counters with failed := ls.counters.failed + 1 } }
            else
              match obj.paths with
              | [] =>
                  { ls with counters := { ls.counters with failed := ls.counters.failed + 1 } }
              | p :: _ =>
                  if 2 ≤ p.length then
                    { ls with counters := { ls.counters with created := ls.counters.created + 1 } }
                  else
                    { ls with counters := { ls.counters with failed := ls.counters.failed + 1 } }
          else
            ls
    else
      if change_type = "deleted" then
        if !dryrun then
          let del := zrcDeleteByObjectId ls.zrc object_id
          if del.2 = 0 then
            { ls with counters := { ls.counters with failed := ls.counters.failed + 1 } }
          else
            { ls with
                zrc := del.1,
                counters := { ls.counters with deleted := ls.counters.deleted + 1 } }
        else
          if change_type = "security" then
            { ls with counters := { ls.counters with security := ls.counters.security + 1 } }
          else
            { ls with counters := { ls.counters with failed := ls.counters.failed + 1 } }
      else
        ls

/-- The whole per-entry loop (src lines 365-419). -/
def processEntries (dryrun : Bool) (store : SyncStore) (zrc : ZRCState)
    (entries : List ChangeEntry) : LoopState :=
  entries.foldl (syncStep dryrun store) ⟨zrc, ⟨0, 0, 0, 0, 0⟩, []⟩

/-- An exception escaping `sync`.  Because of `transaction.atomic` the
database state observed by the caller afterwards is the input state; the
`syncConflict` constructor carries the raise-time ledger so claims about
the explicit `change_log.delete()` can inspect it. -/
inductive SyncErr where
  | improperlyConfigured
  | syncConflict (msg : String) (ledgerAtRaise : LedgerState)
  | attributeError
deriving DecidableEq, Repr

/-- A normal return from `sync`: the returned value (`none` models Python's
implicit `None`, `some d` an `OrderedDict` as an ordered key/count list),
the committed ledger and local store, and whether `getContentChanges` was
called. -/
structure SyncSuccess where
  result : Option (List (String × Nat))
  ledger : LedgerState
  zrc : ZRCState
  getChangesCalled : Bool
deriving DecidableEq, Repr

/-- `CMISDRCClient.sync` (src lines 304-430), embedded with the source's
exact (decompiled) control flow:

* a missing `latestChangeLogToken` raises `ImproperlyConfigured`;
* everything else is under `if not dryrun:` — a dry run falls off the end
  of the function and returns `None`;
* a non-dry run creates the `in_progress` row; if any other row is
  `in_progress` it deletes the new row and raises `SyncException`,
  otherwise line 351 sets the local variable `change_log` to `None`;
* `max_items < 0` raises `SyncException`; `max_items == 0` returns `{}`;
* otherwise the window is pulled and processed, and the completion step
  `change_log.status = completed` dereferences the `None` variable, raising
  `AttributeError` (the `some` branch below mirrors the unreachable
  source lines 422-430). -/
def sync (dryrun : Bool) (store : SyncStore) (ledger : LedgerState)
    (zrc : ZRCState) : Except SyncErr SyncSuccess :=
  match store.latestChangeLogToken with
  | none => Except.error SyncErr.improperlyConfigured
  | some dms_change_log_token =>
    if dryrun then
      Except.ok ⟨none, ledger, zrc, false⟩
    else
      let createRes := ledgerCreate ledger dms_change_log_token
      let ledger1 := createRes.1
      let newPk := createRes.2
      if 0 < otherInProgressCount ledger1 newPk then
        Except.error (SyncErr.syncConflict
          "A synchronization process is already running."
          (ledgerDelete ledger1 newPk))
      else
        let change_log : Option Nat := none
        let last_zs_change_log_token := lastCompletedToken ledger1
        let max_items : Int := dms_change_log_token - last_zs_change_log_token
        if max_items < 0 then
          Except.error (SyncErr.syncConflict
            "The DRC change log token is older than our records." ledger1)
        else if max_items = 0 then
          Except.ok ⟨some [], ledger1, zrc, false⟩
        else
          let result_set := store.changes.take max_items.toNat
          let final := result_set.foldl (syncStep dryrun store) ⟨zrc, ⟨0, 0, 0, 0, 0⟩, []⟩
          match change_log with
          | none => Except.error SyncErr.attributeError
          | some pk =>
              Except.ok ⟨some
                [("created", final.counters.created),
                 ("updated", final.counters.updated),
                 ("deleted", final.counters.deleted),
                 ("security", final.counters.security),
                 ("failed", final.counters.failed)],
                ledgerMarkCompleted ledger1 pk, final.zrc, true⟩

/-- A typed exception raised by a document-lifecycle operation
(drc/cmis/exceptions.py, referenced from src/drc/cmis/client.py). -/
inductive DocErr where
  | documentDoesNotExist
  | documentExists
  | documentConflict
  | documentLocked
deriving DecidableEq, Repr

/-- The CMIS repository as the document-lifecycle operations see it: the
live objects plus a counter from which the store mints fresh object and
working-copy identifiers. -/
structure Repo where
  objects : List StoreObject
  nextId : Nat
deriving DecidableEq, Repr

/-- The `document_query` lookup (src line 32): all store objects whose
`zsdms:documentIdentificatie` property equals the given identifier. -/
def queryByIdentificatie (repo : Repo) (ident : String) : List StoreObject :=
  repo.objects.filter
    (fun o => decide (pyGet o.properties "zsdms:documentIdentificatie" = PropValue.str ident))

/-- `CMISDRCClient._get_cmis_doc` (src lines 88-105): query the store by the
document's identifier; an empty result raises `DocumentDoesNotExistError`,
otherwise the first result's latest version is used.  When a `checkout_id`
is supplied, the private working copy must exist and carry that
`cmis:versionSeriesCheckedOutId`, else `DocumentConflictException`. -/
def get_cmis_doc (repo : Repo) (d : InformatieObject)
    (checkout_id : Option String) : Except DocErr StoreObject :=
  match queryByIdentificatie repo d.identificatie with
  | [] => Except.error DocErr.documentDoesNotExist
  | doc :: _ =>
    match checkout_id with
    | none => Except.ok doc
    | some cid =>
      match doc.pwc with
      | none => Except.error DocErr.documentConflict
      | some pw =>
          if pw.1 = cid then Except.ok doc else Except.error DocErr.documentConflict

/-- Modelled from the spec: `document.get_cmis_properties()` (drc/datamodel,
not under src/) maps the document's metadata to store properties, in
particular recording the business identifier under
`zsdms:documentIdentificatie` (spec section 3, and the property mapping
asserted by src/drc/cmis/tests/cmis_client/test_zaakdocument.py). -/
def get_cmis_properties (d : InformatieObject) : List (String × PropValue) :=
  dictSet d.cmisProps "zsdms:documentIdentificatie" (PropValue.str d.identificatie)

/-- `CMISDRCClient._build_cmis_doc_properties` (src lines 107-112): the full
property set from current metadata, the EDC type marker, and `cmis:name`
when a filename is given. -/
def build_cmis_doc_properties (d : InformatieObject) (filename : Option String) :
    List (String × PropValue) :=
  let p := dictSet (get_cmis_properties d) "cmis:objectTypeId" (PropValue.str edcObjectType)
  match filename with
  | some fn => dictSet p "cmis:name" (PropValue.str fn)
  | none => p

/-- The property dictionary of a freshly created store document (src lines
196-198): the full metadata-derived property set, with a configured
`CMIS_SENDER_PROPERTY` overwritten by the sender (Python assigns the
possibly-`None` sender). -/
def created_document_properties (d : InformatieObject) (filename : Option String)
    (sender : Option String) (senderProperty : Option String) :
    List (String × PropValue) :=
  match senderProperty with
  | some sp => dictSet (build_cmis_doc_properties d filename) sp
      (match sender with
       | some s => PropValue.str s
       | none => PropValue.null)
  | none => build_cmis_doc_properties d filename

/-- The store object materialized by `createDocument` (src lines 200-203):
a fresh object id, the document's title (or the filename) as `cmis:name`,
the built properties, and the supplied stream as content (an absent stream
becomes an empty `BytesIO`, src lines 189-190). -/
def created_store_object (repo : Repo) (d : InformatieObject)
    (filename : Option String) (sender : Option String)
    (senderProperty : Option String) (stream : Option (List Nat)) : StoreObject :=
  { objectId := toString repo.nextId
    name := filename.getD d.titel
    properties := created_document_properties d filename sender senderProperty
    contentStreamId := some (toString repo.nextId)
    content := stream.getD []
    pwc := none
    paths := [["", "unfiled", filename.getD d.titel]] }

/-- `CMISDRCClient.maak_zaakdocument_met_inhoud` (src lines 162-206): fails
with `DocumentExistsError` when `_get_cmis_doc` finds a document with the
same identifier, before the store write; otherwise creates the store object
(an absent stream becomes an empty `BytesIO`, and a configured
`CMIS_SENDER_PROPERTY` overwrites that store property with the sender) and
persists the new object id back onto the local record.  Folder resolution
(src lines 191-194) places the object but affects no claim here and is not
modelled. -/
def maak_zaakdocument_met_inhoud (repo : Repo) (d : InformatieObject)
    (filename : Option String) (sender : Option String)
    (senderProperty : Option String) (stream : Option (List Nat)) :
    Except DocErr (Repo × InformatieObject) :=
  match get_cmis_doc repo d none with
  | Except.ok _ => Except.error DocErr.documentExists
  | Except.error DocErr.documentDoesNotExist =>
      let newDoc := created_store_object repo d filename sender senderProperty stream
      Except.ok (⟨repo.objects ++ [newDoc], repo.nextId + 1⟩,
                 { d with object_id := some newDoc.objectId })
  | Except.error e => Except.error e

/-- `CMISDRCClient.geef_inhoud` (src lines 208-224): `(None, empty)` when
the document has no store object (`DocumentDoesNotExistError` is caught),
`(cmis:name, empty)` when `cmis:contentStreamId` is `None`, and
`(cmis:name, getContentStream())` otherwise. -/
def geef_inhoud (repo : Repo) (d : InformatieObject) : Option String × List Nat :=
  match get_cmis_doc repo d none with
  | Except.error _ => (none, [])
  | Except.ok doc =>
      if doc.contentStreamId = none then (some doc.name, [])
      else (some doc.name, doc.content)

/-- Replace the store object with the given object id. -/
def updateObject (objs : List StoreObject) (oid : String) (newDoc : StoreObject) :
    List StoreObject :=
  objs.map (fun o => if o.objectId == oid then newDoc else o)

/-- `CMISDRCClient.zet_inhoud` (src lines 226-238): resolve the document
(validating the lock when a `checkout_id` is supplied) and overwrite its
content stream. -/
def zet_inhoud (repo : Repo) (d : InformatieObject) (stream : List Nat)
    (checkout_id : Option String) : Except DocErr Repo :=
  match get_cmis_doc repo d checkout_id with
  | Except.error e => Except.error e
  | Except.ok doc =>
      Except.ok ⟨updateObject repo.objects doc.objectId
        { doc with content := stream, contentStreamId := some doc.objectId },
        repo.nextId⟩

/-- Python `for k, v in diff: d[k] = v` — apply a property diff to a
property dictionary. -/
def dictSetAll (props : List (String × PropValue))
    (diff : List (String × PropValue)) : List (String × PropValue) :=
  diff.foldl (fun p kv => dictSet p kv.1 kv.2) props

/-- `cmis_doc.checkin()` — the store commits and removes the private
working copy.  Modelled from the spec (section 4.1): `checkin(lockHandle)`
consumes the lock, returning the document to the unlocked state. -/
def checkinDoc (repo : Repo) (oid : String) : Repo :=
  ⟨repo.objects.map (fun o => if o.objectId == oid then { o with pwc := none } else o),
   repo.nextId⟩

/-- The piece of an `EnkelvoudigInformatieObject.inhoud` file that
`update_zaakdocument` consumes: its filename and its bytes (`to_cmis()`). -/
structure Inhoud where
  bestandsnaam : String
  bytes : List Nat
deriving DecidableEq, Repr

/-- What an `update_zaakdocument` call produced: the new repository state
and the property diff that was sent to the store's `updateProperties`. -/
structure UpdateOutcome where
  repo : Repo
  sentDiff : List (String × PropValue)
deriving DecidableEq, Repr

/-- The dictionary comprehension of src line 245: keep exactly the newly
computed entries whose value differs from the store's live value
(`current_properties.get(key) != new_properties.get(key)`, with `.get`
returning `None` for a missing key). -/
def diff_properties (current newProps : List (String × PropValue)) :
    List (String × PropValue) :=
  newProps.filter (fun kv => decide (pyGet current kv.1 ≠ pyGet newProps kv.1))

/-- `CMISDRCClient.update_zaakdocument` (src lines 240-255): resolve the
document (validating the lock when a `checkout_id` is supplied), recompute
the full property set from current metadata, diff it against the store's
live property values, send only the differing keys to `updateProperties`,
write new content via `zet_inhoud` when supplied, and check the working
copy in when a `checkout_id` was supplied.  The store-side
`UpdateConflictException` (src lines 246-249) cannot arise in this
single-writer model. -/
def update_zaakdocument (repo : Repo) (d : InformatieObject)
    (checkout_id : Option String) (inhoud : Option Inhoud) :
    Except DocErr UpdateOutcome :=
  match get_cmis_doc repo d checkout_id with
  | Except.error e => Except.error e
  | Except.ok cmis_doc =>
      let current_properties := cmis_doc.properties
      let new_properties :=
        build_cmis_doc_properties d (inhoud.map (fun i => i.bestandsnaam))
      let diff := diff_properties current_properties new_properties
      let repo1 : Repo :=
        ⟨updateObject repo.objects cmis_doc.objectId
          { cmis_doc with properties := dictSetAll cmis_doc.properties diff },
         repo.nextId⟩
      match inhoud with
      | some inh =>
          (match zet_inhoud repo1 d inh.bytes checkout_id with
           | Except.error e => Except.error e
           | Except.ok repo2 =>
               if checkout_id.isSome then
                 Except.ok ⟨checkinDoc repo2 cmis_doc.objectId, diff⟩
               else
                 Except.ok ⟨repo2, diff⟩)
      | none =>
          if checkout_id.isSome then
            Except.ok ⟨checkinDoc repo1 cmis_doc.objectId, diff⟩
          else
            Except.ok ⟨repo1, diff⟩

/-- `CMISDRCClient.checkout` (src lines 268-283): resolve the document and
check it out.  The store-side `cmis_doc.checkout()` is modelled from the
spec (section 4.1): it fails with a conflict (`UpdateConflictException`,
wrapped by the client as `DocumentLockedException`) exactly when a working
copy already exists, and otherwise creates a fresh working copy; the client
then returns its `cmis:versionSeriesCheckedOutId` and
`cmis:versionSeriesCheckedOutBy`. -/
def checkout (repo : Repo) (d : InformatieObject) (user : String) :
    Except DocErr (Repo × String × String) :=
  match get_cmis_doc repo d none with
  | Except.error e => Except.error e
  | Except.ok cmis_doc =>
      match cmis_doc.pwc with
      | some _ => Except.error DocErr.documentLocked
      | none =>
          let checkout_id := toString repo.nextId
          Except.ok (⟨updateObject repo.objects cmis_doc.objectId
              { cmis_doc with pwc := some (checkout_id, user) },
              repo.nextId + 1⟩,
            checkout_id, user)

/-- `CMISDRCClient.cancel_checkout` (src lines 285-287): resolve the
document validating the supplied `checkout_id`, then discard the working
copy. -/
def cancel_checkout (repo : Repo) (d : InformatieObject) (checkout_id : String) :
    Except DocErr Repo :=
  match get_cmis_doc repo d (some checkout_id) with
  | Except.error e => Except.error e
  | Except.ok cmis_doc =>
      Except.ok ⟨updateObject repo.objects cmis_doc.objectId
          { cmis_doc with pwc := none },
        repo.nextId⟩

/-- `CMISDRCClient.is_locked` (src lines 295-298): the document is locked
iff its private working copy exists. -/
def is_locked (repo : Repo) (d : InformatieObject) : Except DocErr Bool :=
  match get_cmis_doc repo d none with
  | Except.error e => Except.error e
  | Except.ok cmis_doc => Except.ok cmis_doc.pwc.isSome

/-- The number of store objects carrying the given business identifier. -/
def countByIdentificatie (repo : Repo) (ident : String) : Nat :=
  (queryByIdentificatie repo ident).length

/-- A sequence of `n` successive `create` calls for the same document; a
call that raises leaves the store untouched (the exception propagates to
the caller, who simply calls again). -/
def createRepeatedly (d : InformatieObject) (filename : Option String)
    (sender : Option String) (senderProperty : Option String)
    (stream : Option (List Nat)) : Repo → Nat → Repo
  | repo, 0 => repo
  | repo, n + 1 =>
      let repo' :=
        match maak_zaakdocument_met_inhoud repo d filename sender senderProperty stream with
        | Except.ok res => res.1
        | Except.error _ => repo
      createRepeatedly d filename sender senderProperty stream repo' n

/-- Store object for the reconciliation scenario: a tracked-type (EDC)
object sitting in a case folder, the target of the `created` entry. -/
def objCreated : StoreObject :=
  { objectId := "o1"
    name := "doc1"
    properties := [("cmis:objectTypeId", PropValue.str edcObjectType)]
    contentStreamId := none
    content := []
    pwc := none
    paths := [["", "zaken", "zaak-1", "doc1"]] }

/-- Store object for the reconciliation scenario: a tracked-type object
whose store-carried identifier matches an existing local record. -/
def objUpdatedMatch : StoreObject :=
  { objectId := "o2"
    name := "doc2"
    properties :=
      [("cmis:objectTypeId", PropValue.str edcObjectType),
       ("zsdms:documentIdentificatie", PropValue.str "doc2")]
    contentStreamId := none
    content := []
    pwc := none
    paths := [["", "zaken", "zaak-1", "doc2"]] }

/-- Store object for the reconciliation scenario: a tracked-type object
whose store-carried identifier matches no local record. -/
def objUpdatedNoMatch : StoreObject :=
  { objectId := "o3"
    name := "doc3"
    properties :=
      [("cmis:objectTypeId", PropValue.str edcObjectType),
       ("zsdms:documentIdentificatie", PropValue.str "ghost")]
    contentStreamId := none
    content := []
    pwc := none
    paths := [["", "zaken", "zaak-1", "doc3"]] }

/-- The seven-entry changelog window of the reconciliation-run claim, in
delivery order: `created`, `updated` (matching), `updated` (no match),
`deleted` (matching), `deleted` (no match), `security`, and an
unrecognized change type. -/
def sevenEntries : List ChangeEntry :=
  [⟨"c1", "o1", "created"⟩,
   ⟨"c2", "o2", "updated"⟩,
   ⟨"c3", "o3", "updated"⟩,
   ⟨"c4", "o4", "deleted"⟩,
   ⟨"c5", "o5", "deleted"⟩,
   ⟨"c6", "o6", "security"⟩,
   ⟨"c7", "o7", "squirrel"⟩]

/-- The remote store of the reconciliation-run scenario: changelog token 7
over an empty ledger, so the window covers all seven entries. -/
def sevenStore : SyncStore :=
  { latestChangeLogToken := some 7
    objects := [objCreated, objUpdatedMatch, objUpdatedNoMatch]
    changes := sevenEntries }

/-- The local record store of the reconciliation-run scenario: a record
matching the `updated` entry's identifier and a record matching the first
`deleted` entry's store object id. -/
def sevenZrc : ZRCState :=
  ⟨[⟨"doc2", "titel2", some "o2", []⟩,
    ⟨"doc4", "titel4", some "o4", []⟩]⟩

/-- An empty run ledger. -/
def emptyLedger : LedgerState := ⟨[], 0⟩

/-- The remote store of the single-entry completion scenario: token 1 and
one `security` entry. -/
def oneEntryStore : SyncStore :=
  { latestChangeLogToken := some 1
    objects := []
    changes := [⟨"c1", "o6", "security"⟩] }

/-- An empty local record store. -/
def emptyZrc : ZRCState := ⟨[]⟩

/-- Reading a category's count out of a returned result mapping, with a
missing key denoting a zero count. -/
def resultCount (result : List (String × Nat)) (k : String) : Nat :=
  (result.lookup k).getD 0

/-- Every row of a well-formed ledger survives the filter that drops the
freshly assigned primary key. -/
theorem filter_pk_ne_of_wf (l : LedgerState) (hwf : l.wf) :
    l.rows.filter (fun r => decide (r.pk ≠ l.nextPk)) = l.rows :=
  List.filter_eq_self.mpr (fun r hr => by
    simpa using Nat.ne_of_lt (hwf r hr))

/-- Creating a run row and deleting it again restores the rows of a
well-formed ledger. -/
theorem ledgerDelete_create_rows (l : LedgerState) (t : Int) (hwf : l.wf) :
    (ledgerDelete (ledgerCreate l t).1 (ledgerCreate l t).2).rows = l.rows := by
  show ((l.rows ++ [(⟨l.nextPk, t, ChangeLogStatus.in_progress⟩ : ChangeLogRow)]).filter
      (fun r => decide (r.pk ≠ l.nextPk))) = l.rows
  have h2 : [(⟨l.nextPk, t, ChangeLogStatus.in_progress⟩ : ChangeLogRow)].filter
      (fun r => decide (r.pk ≠ l.nextPk)) = [] := by simp
  rw [List.filter_append, h2, List.append_nil, filter_pk_ne_of_wf l hwf]

/-- When some ledger row is already `in_progress`, the overlap check of the
freshly created run sees it. -/
theorem otherInProgressCount_create_pos (l : LedgerState) (t : Int) (hwf : l.wf)
    (hip : ∃ r ∈ l.rows, r.status = ChangeLogStatus.in_progress) :
    0 < otherInProgressCount (ledgerCreate l t).1 (ledgerCreate l t).2 := by
  obtain ⟨r, hr, hst⟩ := hip
  have hmem : r ∈ (ledgerCreate l t).1.rows.filter
      (fun s => decide (s.pk ≠ (ledgerCreate l t).2 ∧
        s.status = ChangeLogStatus.in_progress)) := by
    refine List.mem_filter.mpr ⟨List.mem_append_left _ hr, ?_⟩
    simp only [decide_eq_true_eq]
    exact ⟨Nat.ne_of_lt (hwf r hr), hst⟩
  exact List.length_pos.mpr (List.ne_nil_of_mem hmem)

/-- When no ledger row is `in_progress`, the overlap check of the freshly
created run sees nothing (the new row itself is excluded by primary key). -/
theorem otherInProgressCount_create_zero (l : LedgerState) (t : Int)
    (hnip : ∀ r ∈ l.rows, r.status ≠ ChangeLogStatus.in_progress) :
    otherInProgressCount (ledgerCreate l t).1 (ledgerCreate l t).2 = 0 := by
  have h1 : l.rows.filter (fun r => decide (r.pk ≠ l.nextPk ∧
      r.status = ChangeLogStatus.in_progress)) = [] := by
    rw [List.filter_eq_nil_iff]
    intro r hr
    simp [hnip r hr]
  show ((l.rows ++ [(⟨l.nextPk, t, ChangeLogStatus.in_progress⟩ : ChangeLogRow)]).filter
      (fun r => decide (r.pk ≠ l.nextPk ∧
        r.status = ChangeLogStatus.in_progress))).length = 0
  rw [List.filter_append, h1]
  simp

/-- Creating the (still `in_progress`) run row does not move the
last-completed token. -/
theorem lastCompletedToken_create (l : LedgerState) (t : Int) :
    lastCompletedToken (ledgerCreate l t).1 = lastCompletedToken l := by
  unfold lastCompletedToken ledgerCreate
  rw [List.filter_append]
  simp

/-- The last-completed token only depends on the rows. -/
theorem lastCompletedToken_rows_eq {l1 l2 : LedgerState} (h : l1.rows = l2.rows) :
    lastCompletedToken l1 = lastCompletedToken l2 := by
  unfold lastCompletedToken
  rw [h]

/-- C1 counterexample.  On a concrete non-dry run whose window is exactly
the claimed seven entries (one `created` resolving to a tracked-type
object, one `updated` with a matching local record, one `updated` without,
one `deleted` with a matching local record, one `deleted` without, one
`security`, one unrecognized type), `sync` does not return the counters
`{created:1, updated:1, deleted:1, security:1, failed:2}` — it raises
`AttributeError` and returns nothing at all. -/
theorem sync_seven_entry_window_raises :
    sync false sevenStore emptyLedger sevenZrc =
      Except.error SyncErr.attributeError := by decide

/-- C1 (amended).  For the non-dry run over that seven-entry window, the
per-entry loop leaves the counters at `{created:1, updated:1, deleted:1,
security:0, failed:2}` — the `security` entry and the unrecognized-type
entry increment no counter, because the source's `security`/unsupported
dispatch sits in a dead `else` branch — and the run then aborts with
`AttributeError` (the run-record variable was set to `None` in the
non-conflict branch) instead of returning the counters. -/
theorem sync_seven_entry_window_counters_and_abort :
    (processEntries false sevenStore sevenZrc sevenEntries).counters =
        ⟨1, 1, 1, 0, 2⟩ ∧
      sync false sevenStore emptyLedger sevenZrc =
        Except.error SyncErr.attributeError := by decide

/-- C2 (code bug).  A dry run never reaches the reconciliation steps: with
the seven-entry window pending, `sync(dryrun=True)` returns Python's
implicit `None` right after the token check — no ledger row, no local
mutation, but also no `getChanges` call, no counting, and no result
mapping, contradicting the claim (and the source's own docstring, which
promises an `OrderedDict` and says the dry run "retrieves all content
changes"). -/
theorem sync_dryrun_returns_none :
    sync true sevenStore emptyLedger sevenZrc =
      Except.ok ⟨none, emptyLedger, sevenZrc, false⟩ := by decide

/-- C3 (code bug).  A non-dry run over a positive window never marks its
run record completed and never returns the counters: line 351 of the
source set the `change_log` variable to `None` in the non-conflict branch,
so the completion step `change_log.status = completed` raises
`AttributeError`.  Shown here on a one-entry window over an empty
ledger. -/
theorem sync_positive_window_attribute_error :
    sync false oneEntryStore emptyLedger emptyZrc =
      Except.error SyncErr.attributeError := by decide

/-- C4.  If, when a non-dry sync run starts, some ledger row is already
`in_progress`, the run aborts with `SyncException` ("A synchronization
process is already running."); the raise-time ledger shows the just-created
run row deleted again — its rows equal the initial rows — so the
completed-token state is unchanged (and `transaction.atomic` additionally
rolls the aborted run back, leaving the caller-observable ledger equal to
the initial one). -/
theorem sync_concurrent_run_conflict
    (store : SyncStore) (ledger : LedgerState) (zrc : ZRCState) (t : Int)
    (htok : store.latestChangeLogToken = some t)
    (hwf : ledger.wf)
    (hip : ∃ r ∈ ledger.rows, r.status = ChangeLogStatus.in_progress) :
    ∃ l', sync false store ledger zrc =
        Except.error (SyncErr.syncConflict
          "A synchronization process is already running." l') ∧
      l'.rows = ledger.rows ∧
      lastCompletedToken l' = lastCompletedToken ledger := by
  refine ⟨ledgerDelete (ledgerCreate ledger t).1 (ledgerCreate ledger t).2,
    ?_, ledgerDelete_create_rows ledger t hwf,
    lastCompletedToken_rows_eq (ledgerDelete_create_rows ledger t hwf)⟩
  simp only [sync, htok, Bool.false_eq_true, if_false]
  rw [if_pos (otherInProgressCount_create_pos ledger t hwf hip)]

/-- C4 witness: a concrete run against a ledger holding an `in_progress`
row aborts with the conflict and leaves the completed rows untouched. -/
theorem sync_concurrent_run_conflict_witness :
    (⟨[⟨0, 3, ChangeLogStatus.in_progress⟩], 1⟩ : LedgerState).wf ∧
    ∃ l', sync false oneEntryStore ⟨[⟨0, 3, ChangeLogStatus.in_progress⟩], 1⟩ emptyZrc =
        Except.error (SyncErr.syncConflict
          "A synchronization process is already running." l') ∧
      l'.rows = [⟨0, 3, ChangeLogStatus.in_progress⟩] ∧
      lastCompletedToken l' =
        lastCompletedToken ⟨[⟨0, 3, ChangeLogStatus.in_progress⟩], 1⟩ :=
  ⟨by intro r hr; simp only [List.mem_singleton] at hr; subst hr; exact Nat.zero_lt_one,
   sync_concurrent_run_conflict oneEntryStore
    ⟨[⟨0, 3, ChangeLogStatus.in_progress⟩], 1⟩ emptyZrc 1 rfl
    (by intro r hr; simp only [List.mem_singleton] at hr; subst hr; exact Nat.zero_lt_one)
    ⟨⟨0, 3, ChangeLogStatus.in_progress⟩, by simp, rfl⟩⟩

/-- C5.  A (non-dry) sync run computes the window as the store's current
token minus the last completed run's token (`lastCompletedToken` is 0 when
no completed row exists): when that difference is negative the run aborts
with `SyncException` ("The DRC change log token is older than our
records."), and when it is zero the run immediately returns the empty
result mapping — every category's count reads as zero — without calling
`getContentChanges` (the `getChangesCalled` flag of the outcome is
`false`). -/
theorem sync_window_size_semantics
    (store : SyncStore) (ledger : LedgerState) (zrc : ZRCState) (t : Int)
    (htok : store.latestChangeLogToken = some t)
    (hnip : ∀ r ∈ ledger.rows, r.status ≠ ChangeLogStatus.in_progress) :
    (t - lastCompletedToken ledger < 0 →
      sync false store ledger zrc =
        Except.error (SyncErr.syncConflict
          "The DRC change log token is older than our records."
          (ledgerCreate ledger t).1)) ∧
    (t - lastCompletedToken ledger = 0 →
      sync false store ledger zrc =
        Except.ok ⟨some [], (ledgerCreate ledger t).1, zrc, false⟩ ∧
      ∀ k, resultCount [] k = 0) := by
  have hcount := otherInProgressCount_create_zero ledger t hnip
  have hlast := lastCompletedToken_create ledger t
  constructor
  · intro hneg
    simp only [sync, htok, Bool.false_eq_true, if_false]
    rw [hcount]
    rw [if_neg (lt_irrefl 0)]
    rw [hlast, if_pos hneg]
  · intro hzero
    refine ⟨?_, fun k => rfl⟩
    simp only [sync, htok, Bool.false_eq_true, if_false]
    rw [hcount]
    rw [if_neg (lt_irrefl 0)]
    rw [hlast, if_neg (show ¬t - lastCompletedToken ledger < 0 by
      rw [hzero]; exact lt_irrefl 0), if_pos hzero]

/-- C5 witness: with token 2 over a ledger whose only (completed) row
carries token 2, the window is zero and the run returns the empty mapping
with no `getChanges` call. -/
theorem sync_window_size_semantics_witness :
    ((2 : Int) - lastCompletedToken ⟨[⟨0, 2, ChangeLogStatus.completed⟩], 1⟩ = 0) ∧
    (sync false ⟨some 2, [], [⟨"c1", "o1", "created"⟩]⟩
        ⟨[⟨0, 2, ChangeLogStatus.completed⟩], 1⟩ emptyZrc =
      Except.ok ⟨some [],
        (ledgerCreate ⟨[⟨0, 2, ChangeLogStatus.completed⟩], 1⟩ 2).1,
        emptyZrc, false⟩ ∧
      ∀ k, resultCount [] k = 0) :=
  ⟨by decide,
   (sync_window_size_semantics ⟨some 2, [], [⟨"c1", "o1", "created"⟩]⟩
      ⟨[⟨0, 2, ChangeLogStatus.completed⟩], 1⟩ emptyZrc 2 rfl
      (by decide)).2 (by decide)⟩

/-- C10.  During the per-entry loop, a not-yet-deduplicated `created` or
`updated` entry whose store object is found but carries an object type
other than the tracked EDC type is silently ignored: the loop step changes
no counter and leaves the local record store untouched. -/
theorem sync_step_ignores_untracked_type
    (dryrun : Bool) (store : SyncStore) (ls : LoopState) (e : ChangeEntry)
    (obj : StoreObject)
    (hct : e.changeType = "created" ∨ e.changeType = "updated")
    (hobj : getStoreObject store e.objectId = some obj)
    (htype : pyGet obj.properties "cmis:objectTypeId" ≠ PropValue.str edcObjectType)
    (hcache : ls.cache.contains (e.objectId ++ "-" ++ e.changeType) = false) :
    (syncStep dryrun store ls e).counters = ls.counters ∧
      (syncStep dryrun store ls e).zrc = ls.zrc := by
  simp only [syncStep, get_cmis_object_id, hcache, Bool.false_eq_true, if_false,
    hobj]
  rw [if_pos hct]
  rw [if_neg htype]
  exact ⟨rfl, rfl⟩

/-- C10 witness: a fresh `created` entry resolving to a folder-typed store
object leaves the counters and the local store unchanged. -/
theorem sync_step_ignores_untracked_type_witness :
    (getStoreObject ⟨some 1,
        [⟨"o9", "f", [("cmis:objectTypeId", PropValue.str "cmis:folder")],
          none, [], none, []⟩], []⟩ "o9" =
      some ⟨"o9", "f", [("cmis:objectTypeId", PropValue.str "cmis:folder")],
          none, [], none, []⟩) ∧
    (syncStep false ⟨some 1,
        [⟨"o9", "f", [("cmis:objectTypeId", PropValue.str "cmis:folder")],
          none, [], none, []⟩], []⟩
      ⟨emptyZrc, ⟨0, 0, 0, 0, 0⟩, []⟩ ⟨"c9", "o9", "created"⟩).counters =
      (⟨0, 0, 0, 0, 0⟩ : Counters) :=
  ⟨by decide,
   (sync_step_ignores_untracked_type false ⟨some 1,
      [⟨"o9", "f", [("cmis:objectTypeId", PropValue.str "cmis:folder")],
        none, [], none, []⟩], []⟩
      ⟨emptyZrc, ⟨0, 0, 0, 0, 0⟩, []⟩ ⟨"c9", "o9", "created"⟩
      ⟨"o9", "f", [("cmis:objectTypeId", PropValue.str "cmis:folder")],
        none, [], none, []⟩
      (Or.inl rfl) (by decide) (by decide) rfl).1⟩

/-- Looking up the key just written by `dictSet` yields the written
value. -/
theorem lookup_dictSet_self (p : List (String × PropValue)) (k : String)
    (v : PropValue) : List.lookup k (dictSet p k v) = some v := by
  induction p with
  | nil => simp [dictSet, List.lookup_cons]
  | cons hd tl ih =>
    obtain ⟨a, b⟩ := hd
    by_cases h : a = k
    · simp [dictSet, h, List.lookup_cons]
    · have h2 : (a == k) = false := beq_eq_false_iff_ne.mpr h
      have h3 : (k == a) = false := beq_eq_false_iff_ne.mpr (fun e => h e.symm)
      simp only [dictSet, h2, Bool.false_eq_true, if_false, List.lookup_cons, h3]
      exact ih

/-- Looking up a different key after `dictSet` is unchanged. -/
theorem lookup_dictSet_ne (p : List (String × PropValue)) (k q : String)
    (v : PropValue) (hne : q ≠ k) :
    List.lookup q (dictSet p k v) = List.lookup q p := by
  induction p with
  | nil =>
    have h3 : (q == k) = false := beq_eq_false_iff_ne.mpr hne
    simp [dictSet, List.lookup_cons, h3]
  | cons hd tl ih =>
    obtain ⟨a, b⟩ := hd
    by_cases h : a = k
    · have h3 : (q == k) = false := beq_eq_false_iff_ne.mpr hne
      have h4 : (q == a) = false := beq_eq_false_iff_ne.mpr (h ▸ hne)
      simp only [dictSet, h, beq_self_eq_true, if_true, List.lookup_cons, h3, h4]
    · have h2 : (a == k) = false := beq_eq_false_iff_ne.mpr h
      simp only [dictSet, h2, Bool.false_eq_true, if_false, List.lookup_cons]
      cases hq : (q == a) with
      | true => rfl
      | false => exact ih

/-- `pyGet` of the key just written by `dictSet`. -/
theorem pyGet_dictSet_self (p : List (String × PropValue)) (k : String)
    (v : PropValue) : pyGet (dictSet p k v) k = v := by
  unfold pyGet
  rw [lookup_dictSet_self]

/-- `pyGet` of a different key after `dictSet`. -/
theorem pyGet_dictSet_ne (p : List (String × PropValue)) (k q : String)
    (v : PropValue) (hne : q ≠ k) : pyGet (dictSet p k v) q = pyGet p q := by
  unfold pyGet
  rw [lookup_dictSet_ne p k q v hne]

/-- The built property set of a document always carries its business
identifier under `zsdms:documentIdentificatie`. -/
theorem pyGet_build_cmis_doc_properties (d : InformatieObject)
    (filename : Option String) :
    pyGet (build_cmis_doc_properties d filename) "zsdms:documentIdentificatie" =
      PropValue.str d.identificatie := by
  simp only [build_cmis_doc_properties, get_cmis_properties]
  cases filename with
  | none =>
      rw [pyGet_dictSet_ne _ _ _ _ (by decide), pyGet_dictSet_self]
  | some fn =>
      rw [pyGet_dictSet_ne _ _ _ _ (by decide),
        pyGet_dictSet_ne _ _ _ _ (by decide), pyGet_dictSet_self]

/-- Unless the configured sender property is the identifier property
itself, a created document's store properties carry its business
identifier. -/
theorem pyGet_created_properties (d : InformatieObject)
    (filename sender senderProperty : Option String)
    (hsp : senderProperty ≠ some "zsdms:documentIdentificatie") :
    pyGet (created_document_properties d filename sender senderProperty)
      "zsdms:documentIdentificatie" = PropValue.str d.identificatie := by
  unfold created_document_properties
  cases senderProperty with
  | none => exact pyGet_build_cmis_doc_properties d filename
  | some sp =>
      have hne : "zsdms:documentIdentificatie" ≠ sp := by
        intro h
        exact hsp (by rw [h])
      rw [pyGet_dictSet_ne _ _ _ _ hne]
      exact pyGet_build_cmis_doc_properties d filename

/-- With a document of the same identifier already in the store, `create`
fails with `DocumentExistsError` before any store write. -/
theorem maak_on_present (repo : Repo) (d : InformatieObject)
    (filename sender senderProperty : Option String) (stream : Option (List Nat))
    (hpos : 0 < countByIdentificatie repo d.identificatie) :
    maak_zaakdocument_met_inhoud repo d filename sender senderProperty stream =
      Except.error DocErr.documentExists := by
  unfold countByIdentificatie at hpos
  cases hq : queryByIdentificatie repo d.identificatie with
  | nil => rw [hq] at hpos; simp at hpos
  | cons doc rest =>
      simp only [maak_zaakdocument_met_inhoud, get_cmis_doc, hq]

/-- With no document of the identifier in the store, `create` materializes
the built store object and persists the fresh object id back onto the
record. -/
theorem maak_on_empty (repo : Repo) (d : InformatieObject)
    (filename sender senderProperty : Option String) (stream : Option (List Nat))
    (hq : queryByIdentificatie repo d.identificatie = []) :
    maak_zaakdocument_met_inhoud repo d filename sender senderProperty stream =
      Except.ok (⟨repo.objects ++
          [created_store_object repo d filename sender senderProperty stream],
          repo.nextId + 1⟩,
        { d with object_id := some (toString repo.nextId) }) := by
  simp only [maak_zaakdocument_met_inhoud, get_cmis_doc, hq]
  rfl

/-- After a successful `create` the store holds exactly one object with the
document's identifier. -/
theorem count_after_create (repo : Repo) (d : InformatieObject)
    (filename sender senderProperty : Option String) (stream : Option (List Nat))
    (hsp : senderProperty ≠ some "zsdms:documentIdentificatie")
    (hq : queryByIdentificatie repo d.identificatie = []) :
    countByIdentificatie
      ⟨repo.objects ++
        [created_store_object repo d filename sender senderProperty stream],
        repo.nextId + 1⟩
      d.identificatie = 1 := by
  have hpg := pyGet_created_properties d filename sender senderProperty hsp
  unfold queryByIdentificatie at hq
  unfold countByIdentificatie queryByIdentificatie
  rw [List.filter_append, hq]
  simp [created_store_object, hpg]

/-- Once the store holds a document with the identifier, any further
sequence of `create` calls leaves the store unchanged. -/
theorem createRepeatedly_stable (repo : Repo) (d : InformatieObject)
    (filename sender senderProperty : Option String) (stream : Option (List Nat))
    (hpos : 0 < countByIdentificatie repo d.identificatie) :
    ∀ n, createRepeatedly d filename sender senderProperty stream repo n = repo := by
  intro n
  induction n with
  | zero => rfl
  | succ m ih =>
      simp only [createRepeatedly,
        maak_on_present repo d filename sender senderProperty stream hpos]
      exact ih

/-- C6.  `create` on an identifier already present in the store fails with
`DocumentExistsError` before any store write (the error carries no new
store state), and starting from a store without the identifier, any
nonempty sequence of `create` calls for that document leaves exactly one
store object with that identifier. -/
theorem create_duplicate_identifier_rejected
    (repo : Repo) (d : InformatieObject)
    (filename sender senderProperty : Option String) (stream : Option (List Nat))
    (hsp : senderProperty ≠ some "zsdms:documentIdentificatie")
    (h0 : countByIdentificatie repo d.identificatie = 0) :
    (∀ r : Repo, 0 < countByIdentificatie r d.identificatie →
      maak_zaakdocument_met_inhoud r d filename sender senderProperty stream =
        Except.error DocErr.documentExists) ∧
    (∀ n : Nat, countByIdentificatie
        (createRepeatedly d filename sender senderProperty stream repo (n + 1))
        d.identificatie = 1) := by
  constructor
  · exact fun r hr => maak_on_present r d filename sender senderProperty stream hr
  · intro n
    have hq : queryByIdentificatie repo d.identificatie = [] := by
      unfold countByIdentificatie at h0
      exact List.length_eq_zero.mp h0
    have hmk := maak_on_empty repo d filename sender senderProperty stream hq
    have hcount := count_after_create repo d filename sender senderProperty stream hsp hq
    simp only [createRepeatedly, hmk]
    rw [createRepeatedly_stable _ d filename sender senderProperty stream
      (by rw [hcount]; exact Nat.one_pos) n]
    exact hcount

/-- C6 witness: two successive creates of the same document on an empty
store leave exactly one object with its identifier. -/
theorem create_duplicate_identifier_rejected_witness :
    ((none : Option String) ≠ some "zsdms:documentIdentificatie") ∧
    countByIdentificatie ⟨[], 0⟩ "id1" = 0 ∧
    countByIdentificatie
      (createRepeatedly ⟨"id1", "t", none, []⟩ none none none none ⟨[], 0⟩ 2)
      "id1" = 1 :=
  ⟨by decide, by decide,
   (create_duplicate_identifier_rejected ⟨[], 0⟩ ⟨"id1", "t", none, []⟩
      none none none none (by decide) (by decide)).2 1⟩

/-- C7.  `geef_inhoud` distinguishes "missing" from "empty": with no store
object for the document's identifier it returns `(None, empty stream)`
rather than an error; with a store object whose `cmis:contentStreamId` is
unset it returns `(filename, empty stream)`; and with a content stream set
it returns `(filename, content)`. -/
theorem geef_inhoud_missing_vs_empty (repo : Repo) (d : InformatieObject) :
    (queryByIdentificatie repo d.identificatie = [] →
      geef_inhoud repo d = (none, [])) ∧
    (∀ doc rest, queryByIdentificatie repo d.identificatie = doc :: rest →
      (doc.contentStreamId = none → geef_inhoud repo d = (some doc.name, [])) ∧
      (∀ sid, doc.contentStreamId = some sid →
        geef_inhoud repo d = (some doc.name, doc.content))) := by
  constructor
  · intro hq
    simp only [geef_inhoud, get_cmis_doc, hq]
  · intro doc rest hq
    constructor
    · intro hcs
      simp only [geef_inhoud, get_cmis_doc, hq]
      rw [if_pos hcs]
    · intro sid hcs
      simp only [geef_inhoud, get_cmis_doc, hq]
      rw [if_neg (by rw [hcs]; exact fun h => Option.noConfusion h)]

/-- C7 witness: a stored document with content bytes `[7, 8]` reads back as
`(filename, [7, 8])`. -/
theorem geef_inhoud_missing_vs_empty_witness :
    queryByIdentificatie
      ⟨[⟨"oR", "nm", [("zsdms:documentIdentificatie", PropValue.str "idR")],
        some "cs", [7, 8], none, []⟩], 1⟩ "idR" =
      [⟨"oR", "nm", [("zsdms:documentIdentificatie", PropValue.str "idR")],
        some "cs", [7, 8], none, []⟩] ∧
    geef_inhoud
      ⟨[⟨"oR", "nm", [("zsdms:documentIdentificatie", PropValue.str "idR")],
        some "cs", [7, 8], none, []⟩], 1⟩
      ⟨"idR", "t", none, []⟩ = (some "nm", [7, 8]) :=
  ⟨by decide,
   ((geef_inhoud_missing_vs_empty
      ⟨[⟨"oR", "nm", [("zsdms:documentIdentificatie", PropValue.str "idR")],
        some "cs", [7, 8], none, []⟩], 1⟩
      ⟨"idR", "t", none, []⟩).2
      ⟨"oR", "nm", [("zsdms:documentIdentificatie", PropValue.str "idR")],
        some "cs", [7, 8], none, []⟩ [] (by decide)).2 "cs" rfl⟩

/-- Mapping a function that preserves a Boolean predicate on the members of
a list commutes with filtering by that predicate. -/
theorem filter_map_comm (f : StoreObject → StoreObject) (P : StoreObject → Bool)
    (l : List StoreObject) (h : ∀ o ∈ l, P (f o) = P o) :
    (l.map f).filter P = (l.filter P).map f := by
  induction l with
  | nil => rfl
  | cons hd tl ih =>
    have hh := h hd (List.mem_cons_self hd tl)
    have ht := ih (fun o ho => h o (List.mem_cons_of_mem hd ho))
    cases hp : P hd with
    | true => simp [List.filter_cons, hh, hp, ht]
    | false => simp [List.filter_cons, hh, hp, ht]

/-- Replacing a store object by one with the same object id keeps the list
of object ids. -/
theorem objIds_updateObject (objs : List StoreObject) (oid : String)
    (newDoc : StoreObject) (hid : newDoc.objectId = oid) :
    (updateObject objs oid newDoc).map (fun o => o.objectId) =
      objs.map (fun o => o.objectId) := by
  unfold updateObject
  rw [List.map_map]
  apply List.map_congr_left
  intro o _
  by_cases hm : (o.objectId == oid) = true
  · simp only [Function.comp_apply, hm, if_true, hid]
    exact (beq_iff_eq.mp hm).symm
  · simp only [Function.comp_apply]
    rw [if_neg hm]

/-- Updating the unique store object found by an identifier query: when
object ids are unique and the replacement keeps the identifier property,
the query afterwards finds exactly the replacement. -/
theorem query_updateObject (objs : List StoreObject) (ident : String)
    (doc newDoc : StoreObject)
    (hfil : objs.filter (fun o =>
        decide (pyGet o.properties "zsdms:documentIdentificatie" =
          PropValue.str ident)) = [doc])
    (hnodup : (objs.map (fun o => o.objectId)).Nodup)
    (hP : decide (pyGet newDoc.properties "zsdms:documentIdentificatie" =
        PropValue.str ident) = true) :
    (updateObject objs doc.objectId newDoc).filter (fun o =>
        decide (pyGet o.properties "zsdms:documentIdentificatie" =
          PropValue.str ident)) = [newDoc] := by
  have hdocmem : doc ∈ objs := by
    have hm : doc ∈ objs.filter (fun o =>
        decide (pyGet o.properties "zsdms:documentIdentificatie" =
          PropValue.str ident)) := by
      rw [hfil]; exact List.mem_singleton.mpr rfl
    exact (List.mem_filter.mp hm).1
  have hPdoc : decide (pyGet doc.properties "zsdms:documentIdentificatie" =
      PropValue.str ident) = true := by
    have hm : doc ∈ objs.filter (fun o =>
        decide (pyGet o.properties "zsdms:documentIdentificatie" =
          PropValue.str ident)) := by
      rw [hfil]; exact List.mem_singleton.mpr rfl
    exact (List.mem_filter.mp hm).2
  have hinj := List.inj_on_of_nodup_map hnodup
  have hpres : ∀ o ∈ objs,
      (fun o => decide (pyGet o.properties "zsdms:documentIdentificatie" =
        PropValue.str ident))
        ((fun o => if o.objectId == doc.objectId then newDoc else o) o) =
      (fun o => decide (pyGet o.properties "zsdms:documentIdentificatie" =
        PropValue.str ident)) o := by
    intro o ho
    by_cases hm : (o.objectId == doc.objectId) = true
    · have hoeq : o = doc := hinj ho hdocmem (beq_iff_eq.mp hm)
      simp only [hm, if_true]
      rw [hP, hoeq, hPdoc]
    · simp [hm]
  show ((objs.map (fun o => if o.objectId == doc.objectId then newDoc else o)).filter
      (fun o => decide (pyGet o.properties "zsdms:documentIdentificatie" =
        PropValue.str ident))) = [newDoc]
  rw [filter_map_comm _ _ _ hpres, hfil]
  simp

/-- C8.  The checkout state machine, on a store with unique object ids
holding exactly one, currently unlocked, object for the document's
identifier: `checkout` succeeds and returns the working copy's id and
holder; a second `checkout` with no intervening `checkin`/`cancelCheckout`
fails with `DocumentLockedException` (the working copy is a single
optional slot, so at most one lock is ever active per document); after
`cancelCheckout` — or after the store-side `checkin` — `is_locked` reads
false and a subsequent `checkout` succeeds. -/
theorem checkout_lock_state_machine
    (repo : Repo) (d : InformatieObject) (doc : StoreObject)
    (user u2 u3 : String)
    (hq : queryByIdentificatie repo d.identificatie = [doc])
    (hnodup : (repo.objects.map (fun o => o.objectId)).Nodup)
    (hunlocked : doc.pwc = none) :
    ∃ repo1 cid,
      checkout repo d user = Except.ok (repo1, cid, user) ∧
      checkout repo1 d u2 = Except.error DocErr.documentLocked ∧
      is_locked repo1 d = Except.ok true ∧
      (∃ repo2, cancel_checkout repo1 d cid = Except.ok repo2 ∧
        is_locked repo2 d = Except.ok false ∧
        (checkout repo2 d u3).isOk = true) ∧
      is_locked (checkinDoc repo1 doc.objectId) d = Except.ok false ∧
      (checkout (checkinDoc repo1 doc.objectId) d u3).isOk = true := by
  have hm0 : doc ∈ repo.objects.filter (fun o =>
      decide (pyGet o.properties "zsdms:documentIdentificatie" =
        PropValue.str d.identificatie)) := by
    have hm1 : doc ∈ queryByIdentificatie repo d.identificatie := by
      rw [hq]; exact List.mem_singleton.mpr rfl
    exact hm1
  have hPdoc : decide (pyGet doc.properties "zsdms:documentIdentificatie" =
      PropValue.str d.identificatie) = true := (List.mem_filter.mp hm0).2
  have hq1 : queryByIdentificatie
      (⟨updateObject repo.objects doc.objectId
          { doc with pwc := some (toString repo.nextId, user) },
        repo.nextId + 1⟩ : Repo) d.identificatie =
      [{ doc with pwc := some (toString repo.nextId, user) }] :=
    query_updateObject repo.objects d.identificatie doc
      { doc with pwc := some (toString repo.nextId, user) } hq hnodup hPdoc
  have hnodup1 : ((updateObject repo.objects doc.objectId
      { doc with pwc := some (toString repo.nextId, user) }).map
        (fun o => o.objectId)).Nodup := by
    rw [objIds_updateObject repo.objects doc.objectId
      { doc with pwc := some (toString repo.nextId, user) } rfl]
    exact hnodup
  have hq2 : queryByIdentificatie
      (⟨updateObject (updateObject repo.objects doc.objectId
            { doc with pwc := some (toString repo.nextId, user) })
          doc.objectId { doc with pwc := none },
        repo.nextId + 1⟩ : Repo) d.identificatie =
      [{ doc with pwc := none }] :=
    query_updateObject
      (updateObject repo.objects doc.objectId
        { doc with pwc := some (toString repo.nextId, user) })
      d.identificatie
      { doc with pwc := some (toString repo.nextId, user) }
      { doc with pwc := none } hq1 hnodup1 hPdoc
  have hcomp : (checkinDoc
      (⟨updateObject repo.objects doc.objectId
          { doc with pwc := some (toString repo.nextId, user) },
        repo.nextId + 1⟩ : Repo) doc.objectId).objects =
      updateObject repo.objects doc.objectId { doc with pwc := none } := by
    show (updateObject repo.objects doc.objectId
        { doc with pwc := some (toString repo.nextId, user) }).map
        (fun o => if o.objectId == doc.objectId then { o with pwc := none } else o) =
      updateObject repo.objects doc.objectId { doc with pwc := none }
    unfold updateObject
    rw [List.map_map]
    apply List.map_congr_left
    intro o _
    by_cases hm : (o.objectId == doc.objectId) = true
    · simp [hm, beq_iff_eq.mp hm]
    · have ho : ¬o.objectId = doc.objectId := by simpa using hm
      simp [hm, ho]
  have hq3 : queryByIdentificatie
      (checkinDoc (⟨updateObject repo.objects doc.objectId
          { doc with pwc := some (toString repo.nextId, user) },
        repo.nextId + 1⟩ : Repo) doc.objectId) d.identificatie =
      [{ doc with pwc := none }] := by
    have h := query_updateObject repo.objects d.identificatie doc
      { doc with pwc := none } hq hnodup hPdoc
    show (checkinDoc (⟨updateObject repo.objects doc.objectId
        { doc with pwc := some (toString repo.nextId, user) },
      repo.nextId + 1⟩ : Repo) doc.objectId).objects.filter (fun o =>
        decide (pyGet o.properties "zsdms:documentIdentificatie" =
          PropValue.str d.identificatie)) = [{ doc with pwc := none }]
    rw [hcomp]
    exact h
  refine ⟨⟨updateObject repo.objects doc.objectId
      { doc with pwc := some (toString repo.nextId, user) },
    repo.nextId + 1⟩, toString repo.nextId,
    ?_, ?_, ?_,
    ⟨⟨updateObject (updateObject repo.objects doc.objectId
          { doc with pwc := some (toString repo.nextId, user) })
        doc.objectId { doc with pwc := none },
      repo.nextId + 1⟩, ?_, ?_, ?_⟩, ?_, ?_⟩
  · simp only [checkout, get_cmis_doc, hq, hunlocked]
  · simp only [checkout, get_cmis_doc, hq1]
  · simp only [is_locked, get_cmis_doc, hq1]
    rfl
  · simp only [cancel_checkout, get_cmis_doc, hq1]
    rw [if_pos trivial]
  · simp only [is_locked, get_cmis_doc, hq2]
    rfl
  · simp only [checkout, get_cmis_doc, hq2]
    rfl
  · simp only [is_locked, get_cmis_doc, hq3]
    rfl
  · simp only [checkout, get_cmis_doc, hq3]
    rfl

/-- C8 witness: a concrete one-document store runs through the full
checkout / second-checkout-fails / cancel / checkin cycle. -/
theorem checkout_lock_state_machine_witness :
    queryByIdentificatie
      ⟨[⟨"oW", "n", [("zsdms:documentIdentificatie", PropValue.str "idW")],
        none, [], none, []⟩], 0⟩ "idW" =
      [⟨"oW", "n", [("zsdms:documentIdentificatie", PropValue.str "idW")],
        none, [], none, []⟩] ∧
    ∃ repo1 cid,
      checkout ⟨[⟨"oW", "n",
          [("zsdms:documentIdentificatie", PropValue.str "idW")],
          none, [], none, []⟩], 0⟩ ⟨"idW", "t", none, []⟩ "alice" =
        Except.ok (repo1, cid, "alice") ∧
      checkout repo1 ⟨"idW", "t", none, []⟩ "bob" =
        Except.error DocErr.documentLocked ∧
      is_locked repo1 ⟨"idW", "t", none, []⟩ = Except.ok true ∧
      (∃ repo2, cancel_checkout repo1 ⟨"idW", "t", none, []⟩ cid =
          Except.ok repo2 ∧
        is_locked repo2 ⟨"idW", "t", none, []⟩ = Except.ok false ∧
        (checkout repo2 ⟨"idW", "t", none, []⟩ "carol").isOk = true) ∧
      is_locked (checkinDoc repo1 "oW") ⟨"idW", "t", none, []⟩ =
        Except.ok false ∧
      (checkout (checkinDoc repo1 "oW") ⟨"idW", "t", none, []⟩ "carol").isOk =
        true :=
  ⟨by decide,
   checkout_lock_state_machine
    ⟨[⟨"oW", "n", [("zsdms:documentIdentificatie", PropValue.str "idW")],
      none, [], none, []⟩], 0⟩
    ⟨"idW", "t", none, []⟩
    ⟨"oW", "n", [("zsdms:documentIdentificatie", PropValue.str "idW")],
      none, [], none, []⟩
    "alice" "bob" "carol" (by decide) (by decide) rfl⟩

/-- C9.  `update_zaakdocument` recomputes the full property set from
current metadata, diffs it against the store's live property values, and
sends exactly `diff_properties` to the store's `updateProperties`: every
sent key has a differing value, and when every newly computed property
already matches the live value the sent diff is empty. -/
theorem update_sends_minimal_diff
    (repo : Repo) (d : InformatieObject) (doc : StoreObject)
    (rest : List StoreObject)
    (hq : queryByIdentificatie repo d.identificatie = doc :: rest) :
    ∃ out, update_zaakdocument repo d none none = Except.ok out ∧
      out.sentDiff =
        diff_properties doc.properties (build_cmis_doc_properties d none) ∧
      (∀ kv ∈ out.sentDiff,
        pyGet doc.properties kv.1 ≠
          pyGet (build_cmis_doc_properties d none) kv.1) ∧
      ((∀ kv ∈ build_cmis_doc_properties d none,
          pyGet doc.properties kv.1 =
            pyGet (build_cmis_doc_properties d none) kv.1) →
        out.sentDiff = []) := by
  refine ⟨⟨⟨updateObject repo.objects doc.objectId { doc with properties := dictSetAll doc.properties (diff_properties doc.properties (build_cmis_doc_properties d none)) }, repo.nextId⟩, diff_properties doc.properties (build_cmis_doc_properties d none)⟩, ?_, rfl, ?_, ?_⟩
  · simp only [update_zaakdocument, get_cmis_doc, hq]
    rfl
  · intro kv hkv
    have hp := List.of_mem_filter hkv
    simpa using hp
  · intro hall
    unfold diff_properties
    rw [List.filter_eq_nil_iff]
    intro kv hkv
    simp [hall kv hkv]

/-- C9 witness: updating a document whose live store properties already
equal the recomputed property set sends the empty diff. -/
theorem update_sends_minimal_diff_witness :
    queryByIdentificatie
      ⟨[⟨"oA", "t",
        [("zsdms:documentbeschrijving", PropValue.str "b"),
         ("zsdms:documentIdentificatie", PropValue.str "idA"),
         ("cmis:objectTypeId", PropValue.str edcObjectType)],
        none, [], none, []⟩], 0⟩ "idA" =
      [⟨"oA", "t",
        [("zsdms:documentbeschrijving", PropValue.str "b"),
         ("zsdms:documentIdentificatie", PropValue.str "idA"),
         ("cmis:objectTypeId", PropValue.str edcObjectType)],
        none, [], none, []⟩] ∧
    ∃ out, update_zaakdocument
        ⟨[⟨"oA", "t",
          [("zsdms:documentbeschrijving", PropValue.str "b"),
           ("zsdms:documentIdentificatie", PropValue.str "idA"),
           ("cmis:objectTypeId", PropValue.str edcObjectType)],
          none, [], none, []⟩], 0⟩
        ⟨"idA", "t", none, [("zsdms:documentbeschrijving", PropValue.str "b")]⟩
        none none = Except.ok out ∧
      out.sentDiff = [] := by
  refine ⟨by decide, ?_⟩
  obtain ⟨out, h1, h2, h3, h4⟩ := update_sends_minimal_diff
    ⟨[⟨"oA", "t",
      [("zsdms:documentbeschrijving", PropValue.str "b"),
       ("zsdms:documentIdentificatie", PropValue.str "idA"),
       ("cmis:objectTypeId", PropValue.str edcObjectType)],
      none, [], none, []⟩], 0⟩
    ⟨"idA", "t", none, [("zsdms:documentbeschrijving", PropValue.str "b")]⟩
    ⟨"oA", "t",
      [("zsdms:documentbeschrijving", PropValue.str "b"),
       ("zsdms:documentIdentificatie", PropValue.str "idA"),
       ("cmis:objectTypeId", PropValue.str edcObjectType)],
      none, [], none, []⟩ [] (by decide)
  exact ⟨out, h1, h4 (by decide)⟩
